import Mathlib

/-!
Verification of the service-center ticket system.

The development shallowly embeds the two persistence models of the
repository:

* `ticket_system.py` — the JSON-backed `Ticket`/`Message`/`Attachment`
  records with their `to_dict`/`from_dict` serialization;
* `db_connection.py` — the relational store, modelled as an explicit
  `DB` state (lists of rows plus auto-increment counters), with every
  SQL statement translated to a pure function on `DB`;
* the duplicate-detection pass of `ticket_gui.py`.

Python dictionaries that carry a fixed key set are modelled as
structures; a key that may be absent becomes an `Option` field.
Python's truthiness-based defaulting (`x or d`) on strings is modelled
by `pyOrStr`.  `datetime.now()` is threaded through as an explicit
`now`/`today` parameter.
-/

/-- Python's `s or d` for strings: the empty string is falsy. -/
def pyOrStr (s d : String) : String :=
  if s = "" then d else s

/-- Python's `s.strip()`: drop leading and trailing whitespace
(structural on the character list, so it evaluates in the kernel). -/
def pyStrip (s : String) : String :=
  String.mk (((s.data.dropWhile (fun c => c.isWhitespace)).reverse.dropWhile
    (fun c => c.isWhitespace)).reverse)

/-- Python's `s.lower()` / SQL `LOWER`. -/
def pyLower (s : String) : String :=
  String.mk (s.data.map Char.toLower)

/-! ### `db_connection._split_full_name` (db_connection.py lines 204-216) -/

/-- Cut a character list at every whitespace character. -/
def wsSplitAux : List Char → List Char → List String
  | [], acc => [String.mk acc.reverse]
  | c :: rest, acc =>
    if c.isWhitespace then String.mk acc.reverse :: wsSplitAux rest []
    else wsSplitAux rest (c :: acc)

/-- `full_name.strip().split()` with empty chunks dropped — the `parts`
list of `_split_full_name` (the leading `strip` is absorbed by dropping
the empty chunks). -/
def splitFullNameParts (full_name : String) : List String :=
  (wsSplitAux full_name.data []).filter (fun p => p != "")

/-- Python's `" ".join(parts)`. -/
def joinSpace : List String → String
  | [] => ""
  | [p] => p
  | p :: rest => p ++ " " ++ joinSpace rest

/-- `_split_full_name`: split a full name into lastname, firstname,
patronymic, padding missing parts with `"-"`. -/
def _split_full_name (full_name : String) : String × String × String :=
  match splitFullNameParts full_name with
  | [] => ("-", "-", "-")
  | [p] => (p, "-", "-")
  | [p1, p2] => (p1, p2, "-")
  | p1 :: p2 :: rest => (p1, p2, joinSpace rest)

/-! ### JSON data model (ticket_system.py) -/

/-- A chat message; the 4-key message dict has exactly the same fields,
so one structure serves for both the object and its dict. -/
structure Message where
  author_role : String
  author_name : String
  text : String
  created_at : String
deriving DecidableEq, Repr

/-- `Message.to_dict` (ticket_system.py lines 39-45). -/
def Message.to_dict (m : Message) : Message :=
  { author_role := m.author_role
    author_name := m.author_name
    text := m.text
    created_at := m.created_at }

/-- `Message.from_dict` composed with the `Message` constructor
(`created_at or datetime.now()`); all four keys are accessed by
indexing, hence required. -/
def Message.from_dict (data : Message) (now : String) : Message :=
  { author_role := data.author_role
    author_name := data.author_name
    text := data.text
    created_at := pyOrStr data.created_at now }

/-- An attachment record (the in-memory object). -/
structure Attachment where
  filename : String
  description : String
deriving DecidableEq, Repr

/-- The attachment dict: `description` may be absent. -/
structure AttachmentDict where
  filename : String
  description : Option String
deriving DecidableEq, Repr

/-- `Attachment.to_dict` (ticket_system.py lines 62-66). -/
def Attachment.to_dict (a : Attachment) : AttachmentDict :=
  { filename := a.filename, description := some a.description }

/-- `Attachment.from_dict` (ticket_system.py lines 68-73):
`description` defaults to `""`. -/
def Attachment.from_dict (d : AttachmentDict) : Attachment :=
  { filename := d.filename, description := d.description.getD "" }

/-- The in-memory `Ticket` object (ticket_system.py lines 76-119). -/
structure Ticket where
  ticket_id : Nat
  device_type : String
  device_model : String
  problem_description : String
  client_name : String
  client_phone : String
  status : String
  priority : String
  ticket_type : String
  operator_group : String
  responsible_operator : String
  observers : List String
  assigned_master : String
  history : List Message
  attachments : List Attachment
  requires_parts : Bool
  created_at : String
  updated_at : String
  report : String
  notify_client : Bool
deriving DecidableEq, Repr

/-- The JSON dict of a ticket: the six required keys are plain fields,
every optional key is an `Option`. -/
structure TicketDict where
  ticket_id : Nat
  device_type : String
  device_model : String
  problem_description : String
  client_name : String
  client_phone : String
  status : Option String
  priority : Option String
  ticket_type : Option String
  operator_group : Option String
  responsible_operator : Option String
  observers : Option (List String)
  assigned_master : Option String
  history : Option (List Message)
  attachments : Option (List AttachmentDict)
  requires_parts : Option Bool
  created_at : Option String
  updated_at : Option String
  report : Option String
  notify_client : Option Bool
deriving DecidableEq, Repr

/-- `Ticket.to_dict` (ticket_system.py lines 121-143): emits every key. -/
def Ticket.to_dict (t : Ticket) : TicketDict :=
  { ticket_id := t.ticket_id
    device_type := t.device_type
    device_model := t.device_model
    problem_description := t.problem_description
    client_name := t.client_name
    client_phone := t.client_phone
    status := some t.status
    priority := some t.priority
    ticket_type := some t.ticket_type
    operator_group := some t.operator_group
    responsible_operator := some t.responsible_operator
    observers := some t.observers
    assigned_master := some t.assigned_master
    history := some (t.history.map Message.to_dict)
    attachments := some (t.attachments.map Attachment.to_dict)
    requires_parts := some t.requires_parts
    created_at := some t.created_at
    updated_at := some t.updated_at
    report := some t.report
    notify_client := some t.notify_client }

/-- `Ticket.from_dict` (lines 145-168) composed with the `Ticket`
constructor defaulting (lines 100-119).  `data.get(k, d)` is `getD`;
the constructor's `observers or []` / `history or []` /
`attachments or []` are the identity on the lists `from_dict` passes;
`created_at or now` and `updated_at or created_at` follow Python
truthiness via `pyOrStr`. -/
def Ticket.from_dict (d : TicketDict) (now : String) : Ticket :=
  { ticket_id := d.ticket_id
    device_type := d.device_type
    device_model := d.device_model
    problem_description := d.problem_description
    client_name := d.client_name
    client_phone := d.client_phone
    status := d.status.getD "Новая"
    priority := d.priority.getD "Средний"
    ticket_type := d.ticket_type.getD "Стандартная"
    operator_group := d.operator_group.getD ""
    responsible_operator := d.responsible_operator.getD ""
    observers := d.observers.getD []
    assigned_master := d.assigned_master.getD ""
    history := (d.history.getD []).map (fun m => Message.from_dict m now)
    attachments := (d.attachments.getD []).map Attachment.from_dict
    requires_parts := d.requires_parts.getD false
    created_at := pyOrStr (d.created_at.getD "") now
    updated_at := pyOrStr (d.updated_at.getD "") (pyOrStr (d.created_at.getD "") now)
    report := d.report.getD ""
    notify_client := d.notify_client.getD false }

/-- `Ticket.add_message` (lines 170-172). -/
def Ticket.add_message (t : Ticket) (m : Message) (now : String) : Ticket :=
  { t with history := t.history ++ [m], updated_at := now }

/-- `Ticket.add_attachment` (lines 174-176). -/
def Ticket.add_attachment (t : Ticket) (a : Attachment) (now : String) : Ticket :=
  { t with attachments := t.attachments ++ [a], updated_at := now }

/-- One mutating operation on a ticket's lists. -/
inductive TicketOp where
  | message (m : Message) (now : String)
  | attachment (a : Attachment) (now : String)
deriving DecidableEq, Repr

/-- Apply one operation. -/
def applyTicketOp (t : Ticket) : TicketOp → Ticket
  | .message m now => t.add_message m now
  | .attachment a now => t.add_attachment a now

/-- Apply a sequence of operations, oldest first. -/
def applyTicketOps (t : Ticket) (ops : List TicketOp) : Ticket :=
  ops.foldl applyTicketOp t

/-! ### Relational data model (db_connection.py / schema tables)

Each table is a list of rows; MySQL auto-increment ids are modelled by
a per-table "next id" counter, and `cur.lastrowid` is the counter value
used for the inserted row.  `CURRENT_DATE` / creation dates are
abstract day numbers (`Nat`), compared chronologically as SQL does.
Nullable columns are `Option` fields. -/

structure UserRow where
  user_id : Nat
  lastname : String
  firstname : String
  surname : String
  phone : String
  login : String
  password : String
  role_id : Nat
deriving DecidableEq, Repr

structure RoleRow where
  role_id : Nat
  role_name : String
deriving DecidableEq, Repr

structure EquipmentTypeRow where
  type_id : Nat
  type_name : String
deriving DecidableEq, Repr

structure EquipmentRow where
  equipment_id : Nat
  type_id : Nat
  model : String
deriving DecidableEq, Repr

structure StatusRow where
  status_id : Nat
  status_name : String
deriving DecidableEq, Repr

structure RequestRow where
  request_id : Nat
  start_date : Nat
  equipment_id : Nat
  problem_description : Option String
  status_id : Nat
  client_id : Nat
  master_id : Option Nat
  priority : Option String
  ticket_type : Option String
  operator_group : Option String
  responsible_operator : Option String
  observers_text : Option String
  notify_client : Bool
  requires_parts : Bool
  report : Option String
deriving DecidableEq, Repr

/-- The whole relational store. -/
structure DB where
  roles : List RoleRow
  users : List UserRow
  equipment_types : List EquipmentTypeRow
  equipment : List EquipmentRow
  request_statuses : List StatusRow
  requests : List RequestRow
  next_role_id : Nat
  next_user_id : Nat
  next_type_id : Nat
  next_equipment_id : Nat
  next_status_id : Nat
  next_request_id : Nat
deriving DecidableEq, Repr

/-- Placeholder row used only as the `getD` default when indexing. -/
def defaultRequest : RequestRow :=
  { request_id := 0, start_date := 0, equipment_id := 0,
    problem_description := none, status_id := 0, client_id := 0,
    master_id := none, priority := none, ticket_type := none,
    operator_group := none, responsible_operator := none,
    observers_text := none, notify_client := false,
    requires_parts := false, report := none }

/-- `get_or_create_client` (db_connection.py lines 219-264): find or
create the role "Заказчик", then find a user by phone and that role,
or insert a fresh client.  Returns `(user_id, new state)`. -/
def get_or_create_client (db : DB) (full_name phone : String) : Nat × DB :=
  let roleStep : Nat × DB :=
    match db.roles.find? (fun r => r.role_name == "Заказчик") with
    | some r => (r.role_id, db)
    | none =>
        (db.next_role_id,
          { db with roles := db.roles ++ [{ role_id := db.next_role_id, role_name := "Заказчик" }],
                    next_role_id := db.next_role_id + 1 })
  let role_id := roleStep.1
  let db1 := roleStep.2
  match db1.users.find? (fun u => u.phone == phone && u.role_id == role_id) with
  | some u => (u.user_id, db1)
  | none =>
      let names := _split_full_name full_name
      let u : UserRow :=
        { user_id := db1.next_user_id, lastname := names.1, firstname := names.2.1,
          surname := names.2.2, phone := phone, login := "client_" ++ phone,
          password := "client", role_id := role_id }
      (db1.next_user_id,
        { db1 with users := db1.users ++ [u], next_user_id := db1.next_user_id + 1 })

/-- `get_or_create_equipment` (lines 267-305). -/
def get_or_create_equipment (db : DB) (type_name model : String) : Nat × DB :=
  let typeStep : Nat × DB :=
    match db.equipment_types.find? (fun et => et.type_name == type_name) with
    | some et => (et.type_id, db)
    | none =>
        (db.next_type_id,
          { db with equipment_types := db.equipment_types ++ [{ type_id := db.next_type_id, type_name := type_name }],
                    next_type_id := db.next_type_id + 1 })
  let type_id := typeStep.1
  let db1 := typeStep.2
  match db1.equipment.find? (fun e => e.type_id == type_id && e.model == model) with
  | some e => (e.equipment_id, db1)
  | none =>
      (db1.next_equipment_id,
        { db1 with equipment := db1.equipment ++ [{ equipment_id := db1.next_equipment_id, type_id := type_id, model := model }],
                   next_equipment_id := db1.next_equipment_id + 1 })

/-- `_get_status_id` (lines 308-328): id of a status name, creating the
row if missing. -/
def _get_status_id (db : DB) (status_name : String) : Nat × DB :=
  match db.request_statuses.find? (fun s => s.status_name == status_name) with
  | some s => (s.status_id, db)
  | none =>
      (db.next_status_id,
        { db with request_statuses := db.request_statuses ++ [{ status_id := db.next_status_id, status_name := status_name }],
                  next_status_id := db.next_status_id + 1 })

/-- `get_status_id` (lines 331-336), the public wrapper. -/
def get_status_id (db : DB) (status_name : String) : Nat × DB :=
  _get_status_id db status_name

/-- `create_request` (lines 339-360).  Columns not named in the INSERT
take their schema defaults; the schema script is not part of `src/`,
so they are modelled as NULL / false. -/
def create_request (db : DB) (client_id equipment_id : Nat)
    (problem_description : String) (today : Nat) : Nat × DB :=
  let statusStep := _get_status_id db "Новая заявка"
  let status_id := statusStep.1
  let db1 := statusStep.2
  let r : RequestRow :=
    { request_id := db1.next_request_id, start_date := today,
      equipment_id := equipment_id, problem_description := some problem_description,
      status_id := status_id, client_id := client_id, master_id := none,
      priority := none, ticket_type := none, operator_group := none,
      responsible_operator := none, observers_text := none,
      notify_client := false, requires_parts := false, report := none }
  (db1.next_request_id,
    { db1 with requests := db1.requests ++ [r], next_request_id := db1.next_request_id + 1 })

/-- `ClientTab.create_ticket` (ticket_gui.py lines 168-190) after its
validation: create or find client and equipment, then register the
request (`dmodel or "Модель не указана"`). -/
def create_ticket (db : DB) (name phone dtype dmodel problem : String)
    (today : Nat) : Nat × DB :=
  let clientStep := get_or_create_client db name phone
  let equipStep := get_or_create_equipment clientStep.2 dtype (pyOrStr dmodel "Модель не указана")
  create_request equipStep.2 clientStep.1 equipStep.1 problem today

/-- `update_request_status_and_report` (lines 167-188):
`SET status_id = %s, report = COALESCE(%s, report), notify_client = %s`. -/
def update_request_status_and_report (db : DB) (request_id status_id : Nat)
    (report : Option String) (notify_client : Bool) : DB :=
  { db with requests := db.requests.map (fun r =>
      if r.request_id = request_id then
        { r with status_id := status_id,
                 report := match report with
                   | none => r.report
                   | some s => some s,
                 notify_client := notify_client }
      else r) }

/-- `_get_user_id_by_master_name` (lines 506-531): strip the name, then
`WHERE lastname = %s OR login = %s LIMIT 1`. -/
def _get_user_id_by_master_name (db : DB) (name : String) : Option Nat :=
  let n := pyStrip name
  if n = "" then none
  else (db.users.find? (fun u => u.lastname == n || u.login == n)).map (fun u => u.user_id)

/-- The dynamically built `SET` clause of `update_request_operator_side`
(lines 567-595) applied to one row: a text field is written iff its
argument `is not None`; `status_id` is written iff it was resolved;
`master_id` is written iff `master_name is not None` — the written value
being the (possibly failed, hence NULL) lookup result. -/
def applyOperatorSet (og ro obs : Option String) (status_id : Option Nat)
    (prio tt mn : Option String) (master_id : Option Nat) (r : RequestRow) : RequestRow :=
  { r with
    operator_group := match og with | some v => some v | none => r.operator_group
    responsible_operator := match ro with | some v => some v | none => r.responsible_operator
    observers_text := match obs with | some v => some v | none => r.observers_text
    status_id := match status_id with | some v => v | none => r.status_id
    priority := match prio with | some v => some v | none => r.priority
    ticket_type := match tt with | some v => some v | none => r.ticket_type
    master_id := match mn with | some _ => master_id | none => r.master_id }

/-- `if status_name: status_id = self._get_status_id(status_name)`
(lines 559-561): Python truthiness, so `None` and `""` resolve nothing
and leave the store untouched. -/
def operatorStatusStep (db : DB) (status_name : Option String) : Option Nat × DB :=
  match status_name with
  | some s =>
      if s = "" then (none, db)
      else (some (_get_status_id db s).1, (_get_status_id db s).2)
  | none => (none, db)

/-- `if master_name: master_id = _get_user_id_by_master_name(master_name)`
(lines 563-565). -/
def operatorMasterId (db : DB) (master_name : Option String) : Option Nat :=
  match master_name with
  | some s => if s = "" then none else _get_user_id_by_master_name db s
  | none => none

/-- `update_request_operator_side` (lines 542-599).  `if status_name:`
and `if master_name:` follow Python truthiness (non-None and
non-empty); the row update is `applyOperatorSet`. -/
def update_request_operator_side (db : DB) (request_id : Nat)
    (operator_group responsible_operator observers_text
     status_name priority ticket_type master_name : Option String) : DB :=
  let db1 := (operatorStatusStep db status_name).2
  { db1 with requests := db1.requests.map (fun r =>
      if r.request_id = request_id then
        applyOperatorSet operator_group responsible_operator observers_text
          (operatorStatusStep db status_name).1 priority ticket_type master_name
          (operatorMasterId db1 master_name) r
      else r) }

/-- `delete_request` (lines 602-609). -/
def delete_request (db : DB) (request_id : Nat) : DB :=
  { db with requests := db.requests.filter (fun r => r.request_id != request_id) }

/-! ### Joined request rows, search and sorting -/

/-- A row of the request/client/equipment/status join that
`fetch_all_requests`, `search_requests` and `fetch_requests_for_master`
all SELECT (db_connection.py lines 400-503, 612-661).  The LEFT JOIN to
the master user only contributes display columns; `master_id` is the
request's own column. -/
structure ArchiveRow where
  request_id : Nat
  start_date : Nat
  problem_description : Option String
  status : String
  priority : Option String
  ticket_type : Option String
  operator_group : Option String
  responsible_operator : Option String
  observers_text : Option String
  notify_client : Bool
  requires_parts : Bool
  report : Option String
  client_id : Nat
  client_lastname : String
  client_firstname : String
  client_surname : String
  client_phone : String
  equipment_id : Nat
  equipment_type : String
  equipment_model : String
  master_id : Option Nat
deriving DecidableEq, Repr

/-- Placeholder row used only as the `getD` default when indexing. -/
def defaultArchiveRow : ArchiveRow :=
  { request_id := 0, start_date := 0, problem_description := none,
    status := "", priority := none, ticket_type := none,
    operator_group := none, responsible_operator := none,
    observers_text := none, notify_client := false, requires_parts := false,
    report := none, client_id := 0, client_lastname := "",
    client_firstname := "", client_surname := "", client_phone := "",
    equipment_id := 0, equipment_type := "", equipment_model := "",
    master_id := none }

/-- The four INNER JOINs shared by the archive queries: a request
yields a row iff its client, equipment, equipment type and status rows
exist (row ids are unique in a well-formed store, so `find?` picks the
join partner). -/
def joinedRows (db : DB) : List ArchiveRow :=
  db.requests.filterMap (fun r =>
    (db.users.find? (fun u => u.user_id == r.client_id)).bind (fun c =>
    (db.equipment.find? (fun e => e.equipment_id == r.equipment_id)).bind (fun e =>
    (db.equipment_types.find? (fun et => et.type_id == e.type_id)).bind (fun et =>
    (db.request_statuses.find? (fun s => s.status_id == r.status_id)).map (fun st =>
      { request_id := r.request_id, start_date := r.start_date,
        problem_description := r.problem_description, status := st.status_name,
        priority := r.priority, ticket_type := r.ticket_type,
        operator_group := r.operator_group,
        responsible_operator := r.responsible_operator,
        observers_text := r.observers_text, notify_client := r.notify_client,
        requires_parts := r.requires_parts, report := r.report,
        client_id := c.user_id, client_lastname := c.lastname,
        client_firstname := c.firstname, client_surname := c.surname,
        client_phone := c.phone, equipment_id := e.equipment_id,
        equipment_type := et.type_name, equipment_model := e.model,
        master_id := r.master_id })))))

/-- `CASE r.priority WHEN 'Высокий' THEN 1 WHEN 'Средний' THEN 2
WHEN 'Низкий' THEN 3 ELSE 4 END` (lines 648-653); a NULL priority
matches no WHEN arm. -/
def priorityRank : Option String → Nat
  | some "Высокий" => 1
  | some "Средний" => 2
  | some "Низкий" => 3
  | _ => 4

/-- Lexicographic `≤` on triples of naturals. -/
def lexLe3 (a b : Nat × Nat × Nat) : Prop :=
  a.1 < b.1 ∨ (a.1 = b.1 ∧ (a.2.1 < b.2.1 ∨ (a.2.1 = b.2.1 ∧ a.2.2 ≤ b.2.2)))

instance (a b : Nat × Nat × Nat) : Decidable (lexLe3 a b) :=
  inferInstanceAs (Decidable (a.1 < b.1 ∨ (a.1 = b.1 ∧
    (a.2.1 < b.2.1 ∨ (a.2.1 = b.2.1 ∧ a.2.2 ≤ b.2.2)))))

/-- The ORDER BY key of `fetch_requests_for_master`: priority rank,
then start date, then request id. -/
def masterSortKey (row : ArchiveRow) : Nat × Nat × Nat :=
  (priorityRank row.priority, row.start_date, row.request_id)

/-- Row order of the technician view. -/
def masterRowLe (a b : ArchiveRow) : Prop :=
  lexLe3 (masterSortKey a) (masterSortKey b)

instance : DecidableRel masterRowLe := fun a b =>
  inferInstanceAs (Decidable (lexLe3 (masterSortKey a) (masterSortKey b)))

instance : IsTotal ArchiveRow masterRowLe :=
  ⟨by intro a b; unfold masterRowLe lexLe3; omega⟩

instance : IsTrans ArchiveRow masterRowLe :=
  ⟨by intro a b c; unfold masterRowLe lexLe3; omega⟩

/-- `fetch_requests_for_master` (lines 612-661): the joined rows of the
requests assigned to `master_id`, in the ORDER BY order. -/
def fetch_requests_for_master (db : DB) (master_id : Nat) : List ArchiveRow :=
  List.insertionSort masterRowLe
    ((joinedRows db).filter (fun row => row.master_id == some master_id))

/-- `needle` occurs in `hay` (character-list form): SQL
`hay LIKE '%needle%'`. -/
def isChunkAt : List Char → List Char → Bool
  | [], _ => true
  | _ :: _, [] => false
  | a :: as, b :: bs => a == b && isChunkAt as bs

/-- Substring containment on character lists. -/
def containsSub : List Char → List Char → Bool
  | [], needle => isChunkAt needle []
  | c :: t, needle => isChunkAt needle (c :: t) || containsSub t needle

/-- SQL `hay LIKE CONCAT('%', needle, '%')`. -/
def strContains (hay needle : String) : Bool :=
  containsSub hay.data needle.data

/-- `CONCAT(c.lastname, ' ', c.firstname, ' ', c.surname)`. -/
def clientFullName (row : ArchiveRow) : String :=
  row.client_lastname ++ " " ++ row.client_firstname ++ " " ++ row.client_surname

/-- Predicate 1: `CAST(r.request_id AS CHAR) LIKE %s`. -/
def pIdMatch (needle : String) (row : ArchiveRow) : Bool :=
  strContains (Nat.repr row.request_id) needle

/-- Predicate 2: lowered client full name. -/
def pFioMatch (needle : String) (row : ArchiveRow) : Bool :=
  strContains (pyLower (clientFullName row)) needle

/-- Predicate 3: lowered client phone. -/
def pPhoneMatch (needle : String) (row : ArchiveRow) : Bool :=
  strContains (pyLower row.client_phone) needle

/-- Predicate 4: lowered equipment type name. -/
def pTypeMatch (needle : String) (row : ArchiveRow) : Bool :=
  strContains (pyLower row.equipment_type) needle

/-- Predicate 5: lowered equipment model. -/
def pModelMatch (needle : String) (row : ArchiveRow) : Bool :=
  strContains (pyLower row.equipment_model) needle

/-- Predicate 6: lowered problem description; NULL never matches. -/
def pDescMatch (needle : String) (row : ArchiveRow) : Bool :=
  match row.problem_description with
  | none => false
  | some s => strContains (pyLower s) needle

/-- Predicate 7: lowered status name. -/
def pStatusMatch (needle : String) (row : ArchiveRow) : Bool :=
  strContains (pyLower row.status) needle

/-- Predicate 8: lowered priority; NULL never matches. -/
def pPrioMatch (needle : String) (row : ArchiveRow) : Bool :=
  match row.priority with
  | none => false
  | some s => strContains (pyLower s) needle

/-- Predicate 9: lowered ticket type; NULL never matches. -/
def pKindMatch (needle : String) (row : ArchiveRow) : Bool :=
  match row.ticket_type with
  | none => false
  | some s => strContains (pyLower s) needle

/-- The nine ORed predicates of `search_requests` (lines 486-495). -/
def rowMatches (needle : String) (row : ArchiveRow) : Bool :=
  pIdMatch needle row || pFioMatch needle row || pPhoneMatch needle row ||
  pTypeMatch needle row || pModelMatch needle row || pDescMatch needle row ||
  pStatusMatch needle row || pPrioMatch needle row || pKindMatch needle row

/-- `ORDER BY r.start_date DESC, r.request_id DESC` of the archive
queries. -/
def archiveDescLe (a b : ArchiveRow) : Prop :=
  b.start_date < a.start_date ∨ (b.start_date = a.start_date ∧ b.request_id ≤ a.request_id)

instance : DecidableRel archiveDescLe := fun a b =>
  inferInstanceAs (Decidable (b.start_date < a.start_date ∨
    (b.start_date = a.start_date ∧ b.request_id ≤ a.request_id)))

/-- `search_requests` (lines 447-503): filter the joined rows with the
nine predicates over `text.lower()`, newest first. -/
def search_requests (db : DB) (text : String) : List ArchiveRow :=
  List.insertionSort archiveDescLe
    ((joinedRows db).filter (rowMatches (pyLower text)))

/-! ### Duplicate detection (ticket_gui.py lines 489-512) -/

/-- The dedup key: `(r["client_phone"],
(r["problem_description"] or "").strip().lower())`. -/
def dupKey (row : ArchiveRow) : String × String :=
  (row.client_phone, pyLower (pyStrip (row.problem_description.getD "")))

/-- First-match lookup in the `seen` association list (a Python dict in
which a key, once written, is never overwritten). -/
def lookupSeen : List ((String × String) × Nat) → (String × String) → Option Nat
  | [], _ => none
  | (k, v) :: rest, key => if k = key then some v else lookupSeen rest key

/-- The flagging pass of `OperatorTab.delete_duplicates`: walk the rows
once; a row whose key is already in `seen` is flagged as a duplicate of
the first row seen with that key, otherwise the key is recorded.  The
result lists the `(duplicate id, original id)` pairs offered for
deletion, in encounter order. -/
def delete_duplicates_flags (seen : List ((String × String) × Nat)) :
    List ArchiveRow → List (Nat × Nat)
  | [] => []
  | r :: rest =>
    match lookupSeen seen (dupKey r) with
    | some orig => (r.request_id, orig) :: delete_duplicates_flags seen rest
    | none => delete_duplicates_flags ((dupKey r, r.request_id) :: seen) rest

/-- A ticket dict whose `created_at` key is present but empty. -/
def ticketDictWithEmptyDate : TicketDict :=
  { ticket_id := 1, device_type := "Printer", device_model := "HP LJ-1020",
    problem_description := "paper jam", client_name := "Ann Smith",
    client_phone := "111-22-33", status := none, priority := none,
    ticket_type := none, operator_group := none, responsible_operator := none,
    observers := none, assigned_master := none, history := none,
    attachments := none, requires_parts := none, created_at := some "",
    updated_at := none, report := none, notify_client := none }

/-- A representative ticket dict with a mix of present and absent
optional keys and non-empty timestamps. -/
def ticketDictSample : TicketDict :=
  { ticket_id := 7, device_type := "Scanner", device_model := "Canon L110",
    problem_description := "no power", client_name := "Bob Lee",
    client_phone := "222-33-44", status := some "В работе", priority := none,
    ticket_type := none, operator_group := some "G1",
    responsible_operator := none, observers := some ["ops", "qa"],
    assigned_master := none,
    history := some [{ author_role := "operator", author_name := "Kim",
                       text := "checked", created_at := "2023-05-01 10:05" }],
    attachments := some [{ filename := "photo.png", description := none }],
    requires_parts := some true, created_at := some "2023-05-01 10:00",
    updated_at := none, report := none, notify_client := none }

/-- A fully populated request row for concrete examples. -/
def sampleRequest : RequestRow :=
  { request_id := 1, start_date := 10, equipment_id := 1,
    problem_description := some "does not print", status_id := 2,
    client_id := 6, master_id := some 5, priority := some "Средний",
    ticket_type := some "Стандартная", operator_group := some "G1",
    responsible_operator := some "Olga", observers_text := some "x,y",
    notify_client := false, requires_parts := false,
    report := some "old report" }

/-- A small concrete store with one client, one master and one request. -/
def dbSimple : DB :=
  { roles := [{ role_id := 1, role_name := "Заказчик" }],
    users := [{ user_id := 5, lastname := "Ivanov", firstname := "Ivan",
                surname := "-", phone := "333", login := "ivanov",
                password := "m", role_id := 2 },
              { user_id := 6, lastname := "Petrova", firstname := "Anna",
                surname := "-", phone := "111", login := "client_111",
                password := "client", role_id := 1 }],
    equipment_types := [{ type_id := 1, type_name := "Printer" }],
    equipment := [{ equipment_id := 1, type_id := 1, model := "HP" }],
    request_statuses := [{ status_id := 1, status_name := "Новая заявка" },
                         { status_id := 2, status_name := "В работе" }],
    requests := [sampleRequest],
    next_role_id := 2, next_user_id := 7, next_type_id := 2,
    next_equipment_id := 2, next_status_id := 3, next_request_id := 2 }

/-- A store with three requests of one master, priorities low/high/med,
equal dates. -/
def dbThree : DB :=
  { roles := [],
    users := [{ user_id := 1, lastname := "Lee", firstname := "Ann",
                surname := "-", phone := "999", login := "client_999",
                password := "client", role_id := 1 }],
    equipment_types := [{ type_id := 1, type_name := "Printer" }],
    equipment := [{ equipment_id := 1, type_id := 1, model := "HP" }],
    request_statuses := [{ status_id := 1, status_name := "Новая заявка" }],
    requests := [{ defaultRequest with
                     request_id := 1
                     start_date := 5
                     equipment_id := 1
                     status_id := 1
                     client_id := 1
                     master_id := some 7
                     priority := some "Низкий" },
                 { defaultRequest with
                     request_id := 2
                     start_date := 5
                     equipment_id := 1
                     status_id := 1
                     client_id := 1
                     master_id := some 7
                     priority := some "Высокий" },
                 { defaultRequest with
                     request_id := 3
                     start_date := 5
                     equipment_id := 1
                     status_id := 1
                     client_id := 1
                     master_id := some 7
                     priority := some "Средний" }],
    next_role_id := 2, next_user_id := 2, next_type_id := 2,
    next_equipment_id := 2, next_status_id := 2, next_request_id := 4 }

/-- Rows A and B for the duplicate-detection scenario. -/
def rowA0 : ArchiveRow :=
  { defaultArchiveRow with
      request_id := 1
      client_phone := "111"
      problem_description := some "Broken screen" }

/-- Case/whitespace variant of A with the same phone. -/
def rowB0 : ArchiveRow :=
  { defaultArchiveRow with
      request_id := 2
      client_phone := "111"
      problem_description := some "  BROKEN screen " }

/-- Same description as A but another phone. -/
def rowC0 : ArchiveRow :=
  { defaultArchiveRow with
      request_id := 3
      client_phone := "222"
      problem_description := some "Broken screen" }

/-- The status name a stored request resolves to. -/
def requestStatusName (db : DB) (rid : Nat) : Option String :=
  (db.requests.find? (fun r => r.request_id == rid)).bind (fun r =>
    (db.request_statuses.find? (fun s => s.status_id == r.status_id)).map
      (fun s => s.status_name))

/-- The empty store, counters at 1. -/
def dbEmpty : DB :=
  { roles := [], users := [], equipment_types := [], equipment := [],
    request_statuses := [], requests := [], next_role_id := 1,
    next_user_id := 1, next_type_id := 1, next_equipment_id := 1,
    next_status_id := 1, next_request_id := 1 }

/-- The row that `create_request` appends (its fields spelled on the
post-`_get_status_id` state, so the equation with `create_request` is
definitional). -/
def createdRequestRow (db : DB) (cid eid : Nat) (problem : String) (today : Nat) :
    RequestRow :=
  { request_id := (_get_status_id db "Новая заявка").2.next_request_id
    start_date := today
    equipment_id := eid
    problem_description := some problem
    status_id := (_get_status_id db "Новая заявка").1
    client_id := cid
    master_id := none
    priority := none
    ticket_type := none
    operator_group := none
    responsible_operator := none
    observers_text := none
    notify_client := false
    requires_parts := false
    report := none }

/-- A store with two requests under ASCII statuses "Done" and "New". -/
def dbSearch : DB :=
  { roles := [],
    users := [{ user_id := 1, lastname := "Smith", firstname := "Ann",
                surname := "-", phone := "111", login := "client_111",
                password := "client", role_id := 1 }],
    equipment_types := [{ type_id := 1, type_name := "Printer" }],
    equipment := [{ equipment_id := 1, type_id := 1, model := "HP" }],
    request_statuses := [{ status_id := 1, status_name := "Done" },
                         { status_id := 2, status_name := "New" }],
    requests := [{ defaultRequest with
                     request_id := 1
                     start_date := 3
                     equipment_id := 1
                     status_id := 1
                     client_id := 1
                     problem_description := some "jam" },
                 { defaultRequest with
                     request_id := 2
                     start_date := 4
                     equipment_id := 1
                     status_id := 2
                     client_id := 1
                     problem_description := some "jam" }],
    next_role_id := 2, next_user_id := 2, next_type_id := 2,
    next_equipment_id := 2, next_status_id := 3, next_request_id := 3 }

/-! ### Theorems -/

/-- `joinSpace` of a list headed by a non-empty string is non-empty. -/
theorem joinSpace_ne_empty (a : String) (t : List String) (ha : a ≠ "") :
    joinSpace (a :: t) ≠ "" := by
  cases t with
  | nil => simpa [joinSpace] using ha
  | cons b t2 =>
      intro h
      have hd := congrArg String.data h
      simp [joinSpace, String.data_append] at hd

/-- Every chunk produced by `splitFullNameParts` is non-empty. -/
theorem mem_splitFullNameParts_ne_empty (s p : String)
    (hp : p ∈ splitFullNameParts s) : p ≠ "" := by
  unfold splitFullNameParts at hp
  have h2 := (List.mem_filter.mp hp).2
  simpa using h2

/-- C10: `_split_full_name` is total and returns exactly three
components: with zero whitespace-separated parts it returns
`("-", "-", "-")`; with one part `p` it returns `(p, "-", "-")`; with
two parts `(p1, p2, "-")`; with three or more, the remaining parts are
joined by single spaces — and no component is ever the empty string. -/
theorem split_full_name_spec (s : String) :
    (splitFullNameParts s = [] → _split_full_name s = ("-", "-", "-")) ∧
    (∀ p, splitFullNameParts s = [p] → _split_full_name s = (p, "-", "-")) ∧
    (∀ p1 p2, splitFullNameParts s = [p1, p2] → _split_full_name s = (p1, p2, "-")) ∧
    (∀ p1 p2 q rest, splitFullNameParts s = p1 :: p2 :: q :: rest →
      _split_full_name s = (p1, p2, joinSpace (q :: rest))) ∧
    (_split_full_name s).1 ≠ "" ∧ (_split_full_name s).2.1 ≠ "" ∧
    (_split_full_name s).2.2 ≠ "" := by
  have hne : (_split_full_name s).1 ≠ "" ∧ (_split_full_name s).2.1 ≠ "" ∧
      (_split_full_name s).2.2 ≠ "" := by
    rcases hE : splitFullNameParts s with _ | ⟨p1, _ | ⟨p2, _ | ⟨q, rest⟩⟩⟩
    · unfold _split_full_name
      rw [hE]
      exact ⟨by decide, by decide, by decide⟩
    · have hp1 : p1 ≠ "" := mem_splitFullNameParts_ne_empty s p1 (by rw [hE]; simp)
      unfold _split_full_name
      rw [hE]
      refine ⟨hp1, ?_, ?_⟩ <;> exact (by decide : "-" ≠ "")
    · have hp1 : p1 ≠ "" := mem_splitFullNameParts_ne_empty s p1 (by rw [hE]; simp)
      have hp2 : p2 ≠ "" := mem_splitFullNameParts_ne_empty s p2 (by rw [hE]; simp)
      unfold _split_full_name
      rw [hE]
      exact ⟨hp1, hp2, (by decide : "-" ≠ "")⟩
    · have hp1 : p1 ≠ "" := mem_splitFullNameParts_ne_empty s p1 (by rw [hE]; simp)
      have hp2 : p2 ≠ "" := mem_splitFullNameParts_ne_empty s p2 (by rw [hE]; simp)
      have hq : q ≠ "" := mem_splitFullNameParts_ne_empty s q (by rw [hE]; simp)
      unfold _split_full_name
      rw [hE]
      exact ⟨hp1, hp2, joinSpace_ne_empty q rest hq⟩
  refine ⟨?_, ?_, ?_, ?_, hne.1, hne.2.1, hne.2.2⟩
  · intro h; unfold _split_full_name; rw [h]
  · intro p h; unfold _split_full_name; rw [h]
  · intro p1 p2 h; unfold _split_full_name; rw [h]
  · intro p1 p2 q rest h; unfold _split_full_name; rw [h]

/-- Witness for `split_full_name_spec` at a concrete four-part name. -/
theorem split_full_name_spec_witness :
    splitFullNameParts "Ivanov  Ivan Ivanovich Jr" = ["Ivanov", "Ivan", "Ivanovich", "Jr"] ∧
    _split_full_name "Ivanov  Ivan Ivanovich Jr" =
      ("Ivanov", "Ivan", joinSpace ["Ivanovich", "Jr"]) :=
  ⟨by decide,
   (split_full_name_spec "Ivanov  Ivan Ivanovich Jr").2.2.2.1 "Ivanov" "Ivan" "Ivanovich"
     ["Jr"] (by decide)⟩

/-- After any operation sequence the original history is a prefix of
the new one. -/
theorem applyTicketOps_history_extends (ops : List TicketOp) (t : Ticket) :
    ∃ tail, (applyTicketOps t ops).history = t.history ++ tail := by
  induction ops generalizing t with
  | nil => exact ⟨[], (List.append_nil _).symm⟩
  | cons op ops ih =>
      obtain ⟨tail, htail⟩ := ih (applyTicketOp t op)
      have hstep : applyTicketOps t (op :: ops) = applyTicketOps (applyTicketOp t op) ops := rfl
      cases op with
      | message m now =>
          refine ⟨m :: tail, ?_⟩
          rw [hstep, htail]
          simp [applyTicketOp, Ticket.add_message]
      | attachment a now =>
          refine ⟨tail, ?_⟩
          rw [hstep, htail]
          simp [applyTicketOp, Ticket.add_attachment]

/-- After any operation sequence the original attachment list is a
prefix of the new one. -/
theorem applyTicketOps_attachments_extends (ops : List TicketOp) (t : Ticket) :
    ∃ tail, (applyTicketOps t ops).attachments = t.attachments ++ tail := by
  induction ops generalizing t with
  | nil => exact ⟨[], (List.append_nil _).symm⟩
  | cons op ops ih =>
      obtain ⟨tail, htail⟩ := ih (applyTicketOp t op)
      have hstep : applyTicketOps t (op :: ops) = applyTicketOps (applyTicketOp t op) ops := rfl
      cases op with
      | message m now =>
          refine ⟨tail, ?_⟩
          rw [hstep, htail]
          simp [applyTicketOp, Ticket.add_message]
      | attachment a now =>
          refine ⟨a :: tail, ?_⟩
          rw [hstep, htail]
          simp [applyTicketOp, Ticket.add_attachment]

/-- C8: a ticket's history and attachment lists are append-only: after
any sequence of `add_message`/`add_attachment` operations the previous
contents are a prefix of the new contents (so existing elements are
never modified or removed), and each single operation appends exactly
its element at the tail, so ordering is append order. -/
theorem ticket_lists_append_only (t : Ticket) (ops : List TicketOp) :
    (∃ tail, (applyTicketOps t ops).history = t.history ++ tail) ∧
    (∃ tail, (applyTicketOps t ops).attachments = t.attachments ++ tail) ∧
    (∀ m now, (t.add_message m now).history = t.history ++ [m]) ∧
    (∀ a now, (t.add_attachment a now).attachments = t.attachments ++ [a]) :=
  ⟨applyTicketOps_history_extends ops t, applyTicketOps_attachments_extends ops t,
   fun _ _ => rfl, fun _ _ => rfl⟩

/-- Reloading messages whose timestamps are non-empty is the identity. -/
theorem roundtrip_history (now : String) (l : List Message)
    (h : ∀ m ∈ l, m.created_at ≠ "") :
    (l.map (fun m => Message.from_dict m now)).map Message.to_dict = l := by
  induction l with
  | nil => simp
  | cons m t ih =>
      have hm : m.created_at ≠ "" := h m (List.mem_cons_self m t)
      have ht := ih (fun x hx => h x (List.mem_cons_of_mem m hx))
      simp only [List.map_cons, ht]
      simp [Message.to_dict, Message.from_dict, pyOrStr, hm]

/-- Reloading an attachment dict fills in the empty-string default for
a missing description. -/
theorem roundtrip_attachment (a : AttachmentDict) :
    Attachment.to_dict (Attachment.from_dict a) =
      { filename := a.filename, description := some (a.description.getD "") } := rfl

/-- C2 (amended): serializing after deserializing reproduces every key
present in the dict and substitutes the documented defaults for absent
optional keys — provided `created_at`, `updated_at` and the message
timestamps are not present-but-empty (Python's `or`-defaulting replaces
an empty timestamp by the current time). -/
theorem ticket_roundtrip (d : TicketDict) (now : String)
    (hca : d.created_at ≠ some "") (hua : d.updated_at ≠ some "")
    (hh : ∀ m ∈ d.history.getD [], m.created_at ≠ "") :
    Ticket.to_dict (Ticket.from_dict d now) =
      { ticket_id := d.ticket_id
        device_type := d.device_type
        device_model := d.device_model
        problem_description := d.problem_description
        client_name := d.client_name
        client_phone := d.client_phone
        status := some (d.status.getD "Новая")
        priority := some (d.priority.getD "Средний")
        ticket_type := some (d.ticket_type.getD "Стандартная")
        operator_group := some (d.operator_group.getD "")
        responsible_operator := some (d.responsible_operator.getD "")
        observers := some (d.observers.getD [])
        assigned_master := some (d.assigned_master.getD "")
        history := some (d.history.getD [])
        attachments := some ((d.attachments.getD []).map
          (fun a => { filename := a.filename, description := some (a.description.getD "") }))
        requires_parts := some (d.requires_parts.getD false)
        created_at := some (d.created_at.getD now)
        updated_at := some (d.updated_at.getD (d.created_at.getD now))
        report := some (d.report.getD "")
        notify_client := some (d.notify_client.getD false) } := by
  have hcre : pyOrStr (d.created_at.getD "") now = d.created_at.getD now := by
    cases hc : d.created_at with
    | none => simp [pyOrStr]
    | some s =>
        have hs : s ≠ "" := by
          intro h
          exact hca (by rw [hc, h])
        simp [pyOrStr, hs]
  have hupd : pyOrStr (d.updated_at.getD "") (d.created_at.getD now) =
      d.updated_at.getD (d.created_at.getD now) := by
    cases hu : d.updated_at with
    | none => simp [pyOrStr]
    | some s =>
        have hs : s ≠ "" := by
          intro h
          exact hua (by rw [hu, h])
        simp [pyOrStr, hs]
  simp [Ticket.to_dict, Ticket.from_dict, hcre, hupd, roundtrip_attachment,
    roundtrip_history now _ hh]

/-- C2 counterexample: for a dict carrying `created_at = ""` the
round trip does NOT reproduce the field — the empty timestamp is
replaced by the current time, so `serialize(deserialize(x)) == x`
fails as stated. -/
theorem ticket_roundtrip_defect :
    (Ticket.to_dict (Ticket.from_dict ticketDictWithEmptyDate "2024-01-01 12:00")).created_at ≠
      ticketDictWithEmptyDate.created_at := by decide

/-- Witness for `ticket_roundtrip` at `ticketDictSample`. -/
theorem ticket_roundtrip_witness :
    ticketDictSample.created_at ≠ some "" ∧ ticketDictSample.updated_at ≠ some "" ∧
    (∀ m ∈ ticketDictSample.history.getD [], m.created_at ≠ "") ∧
    Ticket.to_dict (Ticket.from_dict ticketDictSample "2024-01-01 12:00") =
      { ticket_id := ticketDictSample.ticket_id
        device_type := ticketDictSample.device_type
        device_model := ticketDictSample.device_model
        problem_description := ticketDictSample.problem_description
        client_name := ticketDictSample.client_name
        client_phone := ticketDictSample.client_phone
        status := some (ticketDictSample.status.getD "Новая")
        priority := some (ticketDictSample.priority.getD "Средний")
        ticket_type := some (ticketDictSample.ticket_type.getD "Стандартная")
        operator_group := some (ticketDictSample.operator_group.getD "")
        responsible_operator := some (ticketDictSample.responsible_operator.getD "")
        observers := some (ticketDictSample.observers.getD [])
        assigned_master := some (ticketDictSample.assigned_master.getD "")
        history := some (ticketDictSample.history.getD [])
        attachments := some ((ticketDictSample.attachments.getD []).map
          (fun a => { filename := a.filename, description := some (a.description.getD "") }))
        requires_parts := some (ticketDictSample.requires_parts.getD false)
        created_at := some (ticketDictSample.created_at.getD "2024-01-01 12:00")
        updated_at := some (ticketDictSample.updated_at.getD
          (ticketDictSample.created_at.getD "2024-01-01 12:00"))
        report := some (ticketDictSample.report.getD "")
        notify_client := some (ticketDictSample.notify_client.getD false) } :=
  ⟨by decide, by decide, by decide,
   ticket_roundtrip ticketDictSample "2024-01-01 12:00" (by decide) (by decide) (by decide)⟩

/-- `getD` through `map`, inside bounds. -/
theorem getD_map_of_lt {α : Type} (f : α → α) (l : List α) (i : Nat) (d : α)
    (h : i < l.length) : (l.map f).getD i d = f (l.getD i d) := by
  induction l generalizing i with
  | nil => simp at h
  | cons a t ih =>
      cases i with
      | zero => simp [List.getD]
      | succ n => simpa [List.getD] using ih n (by simpa using h)

/-- Resolving a status id never touches the requests table. -/
theorem _get_status_id_requests (db : DB) (s : String) :
    (_get_status_id db s).2.requests = db.requests := by
  unfold _get_status_id
  split <;> rfl

/-- The status-resolution step of the operator update never touches the
requests table. -/
theorem operatorStatusStep_requests (db : DB) (sn : Option String) :
    (operatorStatusStep db sn).2.requests = db.requests := by
  unfold operatorStatusStep
  cases sn with
  | none => rfl
  | some s =>
      by_cases hs : s = ""
      · simp [hs]
      · simp [hs, _get_status_id_requests]

/-- The requests table after `update_request_operator_side` is the
pointwise update of the old table. -/
theorem operator_update_requests (db : DB) (rid : Nat)
    (og ro obs sn pr tt mn : Option String) :
    (update_request_operator_side db rid og ro obs sn pr tt mn).requests =
      db.requests.map (fun r =>
        if r.request_id = rid then
          applyOperatorSet og ro obs (operatorStatusStep db sn).1 pr tt mn
            (operatorMasterId (operatorStatusStep db sn).2 mn) r
        else r) := by
  unfold update_request_operator_side
  dsimp only
  rw [operatorStatusStep_requests]

/-- C9: `update_request_status_and_report` with `report = None`
overwrites `status_id` and `notify_client` of the addressed ticket but
leaves the stored report unchanged (`COALESCE`); a non-null report
replaces it; rows with another id are untouched — so a `None` argument
can never clear a previously saved report. -/
theorem status_report_update_frame (db : DB) (rid sid : Nat) (rep : Option String)
    (nt : Bool) (i : Nat) (h : i < db.requests.length) :
    (update_request_status_and_report db rid sid rep nt).requests.length =
      db.requests.length ∧
    (rep = none →
      ((update_request_status_and_report db rid sid rep nt).requests.getD i
          defaultRequest).report = (db.requests.getD i defaultRequest).report) ∧
    ((db.requests.getD i defaultRequest).request_id = rid →
      ((update_request_status_and_report db rid sid rep nt).requests.getD i
          defaultRequest).status_id = sid ∧
      ((update_request_status_and_report db rid sid rep nt).requests.getD i
          defaultRequest).notify_client = nt) ∧
    (∀ s, rep = some s → (db.requests.getD i defaultRequest).request_id = rid →
      ((update_request_status_and_report db rid sid rep nt).requests.getD i
          defaultRequest).report = some s) ∧
    ((db.requests.getD i defaultRequest).request_id ≠ rid →
      (update_request_status_and_report db rid sid rep nt).requests.getD i
          defaultRequest = db.requests.getD i defaultRequest) := by
  have hget : (update_request_status_and_report db rid sid rep nt).requests.getD i
      defaultRequest =
      (fun r => if r.request_id = rid then
        { r with status_id := sid,
                 report := match rep with | none => r.report | some s => some s,
                 notify_client := nt }
      else r) (db.requests.getD i defaultRequest) :=
    getD_map_of_lt _ _ i defaultRequest h
  refine ⟨by simp [update_request_status_and_report], ?_, ?_, ?_, ?_⟩
  · intro hrep
    subst hrep
    simp only [hget]
    by_cases hr : (db.requests.getD i defaultRequest).request_id = rid
    · rw [if_pos hr]
    · rw [if_neg hr]
  · intro hr
    simp only [hget]
    rw [if_pos hr]
    exact ⟨rfl, rfl⟩
  · intro s hrep hr
    subst hrep
    simp only [hget]
    rw [if_pos hr]
  · intro hr
    simp only [hget]
    rw [if_neg hr]

/-- Witness for `status_report_update_frame`: a `None` report keeps the
old report while status and the notification flag are overwritten. -/
theorem status_report_update_frame_witness :
    ((update_request_status_and_report dbSimple 1 5 none true).requests.getD 0
        defaultRequest).report = (dbSimple.requests.getD 0 defaultRequest).report ∧
    ((update_request_status_and_report dbSimple 1 5 none true).requests.getD 0
        defaultRequest).status_id = 5 ∧
    ((update_request_status_and_report dbSimple 1 5 none true).requests.getD 0
        defaultRequest).notify_client = true := by
  have H := status_report_update_frame dbSimple 1 5 none true 0 (by decide)
  exact ⟨H.2.1 rfl, (H.2.2.1 (by decide)).1, (H.2.2.1 (by decide)).2⟩

/-- C6: in `update_request_operator_side` every field whose argument is
passed as `None` is left untouched on every stored row — only fields
with a non-null argument are written. -/
theorem operator_update_frame (db : DB) (rid : Nat)
    (og ro obs sn pr tt mn : Option String) (i : Nat)
    (h : i < db.requests.length) :
    (update_request_operator_side db rid og ro obs sn pr tt mn).requests.length =
      db.requests.length ∧
    (og = none →
      ((update_request_operator_side db rid og ro obs sn pr tt mn).requests.getD i
          defaultRequest).operator_group =
        (db.requests.getD i defaultRequest).operator_group) ∧
    (ro = none →
      ((update_request_operator_side db rid og ro obs sn pr tt mn).requests.getD i
          defaultRequest).responsible_operator =
        (db.requests.getD i defaultRequest).responsible_operator) ∧
    (obs = none →
      ((update_request_operator_side db rid og ro obs sn pr tt mn).requests.getD i
          defaultRequest).observers_text =
        (db.requests.getD i defaultRequest).observers_text) ∧
    (sn = none →
      ((update_request_operator_side db rid og ro obs sn pr tt mn).requests.getD i
          defaultRequest).status_id =
        (db.requests.getD i defaultRequest).status_id) ∧
    (pr = none →
      ((update_request_operator_side db rid og ro obs sn pr tt mn).requests.getD i
          defaultRequest).priority =
        (db.requests.getD i defaultRequest).priority) ∧
    (tt = none →
      ((update_request_operator_side db rid og ro obs sn pr tt mn).requests.getD i
          defaultRequest).ticket_type =
        (db.requests.getD i defaultRequest).ticket_type) ∧
    (mn = none →
      ((update_request_operator_side db rid og ro obs sn pr tt mn).requests.getD i
          defaultRequest).master_id =
        (db.requests.getD i defaultRequest).master_id) := by
  have hget : (update_request_operator_side db rid og ro obs sn pr tt mn).requests.getD i
      defaultRequest =
      (fun r =>
        if r.request_id = rid then
          applyOperatorSet og ro obs (operatorStatusStep db sn).1 pr tt mn
            (operatorMasterId (operatorStatusStep db sn).2 mn) r
        else r) (db.requests.getD i defaultRequest) := by
    rw [operator_update_requests]
    exact getD_map_of_lt _ _ i defaultRequest h
  have hlen : (update_request_operator_side db rid og ro obs sn pr tt mn).requests.length =
      db.requests.length := by
    rw [operator_update_requests]
    exact List.length_map _ _
  refine ⟨hlen, ?_, ?_, ?_, ?_, ?_, ?_, ?_⟩ <;> intro harg <;> subst harg <;>
    simp only [hget] <;>
    by_cases hr : (db.requests.getD i defaultRequest).request_id = rid
  · rw [if_pos hr]; rfl
  · rw [if_neg hr]
  · rw [if_pos hr]; rfl
  · rw [if_neg hr]
  · rw [if_pos hr]; rfl
  · rw [if_neg hr]
  · rw [if_pos hr]; rfl
  · rw [if_neg hr]
  · rw [if_pos hr]; rfl
  · rw [if_neg hr]
  · rw [if_pos hr]; rfl
  · rw [if_neg hr]
  · rw [if_pos hr]; rfl
  · rw [if_neg hr]

/-- Witness for `operator_update_frame`: updating only the priority
leaves the other six fields of the stored row unchanged. -/
theorem operator_update_frame_witness :
    ((update_request_operator_side dbSimple 1 none none none none
        (some "Высокий") none none).requests.getD 0 defaultRequest).operator_group =
      (dbSimple.requests.getD 0 defaultRequest).operator_group ∧
    ((update_request_operator_side dbSimple 1 none none none none
        (some "Высокий") none none).requests.getD 0 defaultRequest).responsible_operator =
      (dbSimple.requests.getD 0 defaultRequest).responsible_operator ∧
    ((update_request_operator_side dbSimple 1 none none none none
        (some "Высокий") none none).requests.getD 0 defaultRequest).observers_text =
      (dbSimple.requests.getD 0 defaultRequest).observers_text ∧
    ((update_request_operator_side dbSimple 1 none none none none
        (some "Высокий") none none).requests.getD 0 defaultRequest).status_id =
      (dbSimple.requests.getD 0 defaultRequest).status_id ∧
    ((update_request_operator_side dbSimple 1 none none none none
        (some "Высокий") none none).requests.getD 0 defaultRequest).ticket_type =
      (dbSimple.requests.getD 0 defaultRequest).ticket_type ∧
    ((update_request_operator_side dbSimple 1 none none none none
        (some "Высокий") none none).requests.getD 0 defaultRequest).master_id =
      (dbSimple.requests.getD 0 defaultRequest).master_id := by
  have H := operator_update_frame dbSimple 1 none none none none (some "Высокий") none
    none 0 (by decide)
  exact ⟨H.2.1 rfl, H.2.2.1 rfl, H.2.2.2.1 rfl, H.2.2.2.2.1 rfl,
    H.2.2.2.2.2.2.1 rfl, H.2.2.2.2.2.2.2 rfl⟩

/-- C1 counterexample: ticket 1 of `dbSimple` has master 5; updating it
with the unknown master name "Petrov" CLEARS the technician field
instead of leaving it unchanged. -/
theorem assign_unknown_master_defect :
    (dbSimple.requests.getD 0 defaultRequest).master_id = some 5 ∧
    ((update_request_operator_side dbSimple 1 none none none none none none
        (some "Petrov")).requests.getD 0 defaultRequest).master_id = none := by
  constructor
  · decide
  · decide

/-- C1 (amended): calling `update_request_operator_side` with a
non-null `master_name` that matches no user (neither by stripped
lastname nor by login) sets the addressed ticket's `master_id` to NULL
— it clears, not preserves, the technician field, and the function
reports nothing. -/
theorem assign_unknown_master_clears (db : DB) (rid : Nat) (mn : String)
    (hno : ∀ u ∈ db.users, u.lastname ≠ pyStrip mn ∧ u.login ≠ pyStrip mn) :
    ∀ r ∈ (update_request_operator_side db rid none none none none none none
        (some mn)).requests, r.request_id = rid → r.master_id = none := by
  have hmid : operatorMasterId db (some mn) = none := by
    unfold operatorMasterId _get_user_id_by_master_name
    by_cases h0 : mn = ""
    · simp [h0]
    · simp only [if_neg h0]
      by_cases h1 : pyStrip mn = ""
      · simp [h1]
      · simp only [if_neg h1]
        have hfind : db.users.find? (fun u => u.lastname == pyStrip mn || u.login == pyStrip mn) = none := by
          rw [List.find?_eq_none]
          intro u hu
          have hn := hno u hu
          simp [hn.1, hn.2]
        rw [hfind]
        rfl
  intro r hr hid
  rw [operator_update_requests] at hr
  obtain ⟨r0, hr0, heq⟩ := List.mem_map.mp hr
  by_cases h : r0.request_id = rid
  · rw [if_pos h] at heq
    rw [← heq]
    simpa [applyOperatorSet, operatorStatusStep] using hmid
  · rw [if_neg h] at heq
    exact absurd (heq ▸ hid) h

/-- Witness for `assign_unknown_master_clears` on `dbSimple`. -/
theorem assign_unknown_master_clears_witness :
    ((update_request_operator_side dbSimple 1 none none none none none none
        (some "Petrov")).requests.getD 0 defaultRequest).master_id = none :=
  assign_unknown_master_clears dbSimple 1 "Petrov" (by decide) _ (by decide) (by decide)

/-- C5: `fetch_requests_for_master` returns exactly the master's
assigned (joined) tickets, ordered by the fixed priority rank
(high < medium < low < any other priority), then creation date, then
request id; in particular three equal-date tickets with priorities
low, high, medium come back as high, medium, low. -/
theorem master_view_sorted :
    (∀ (db : DB) (mid : Nat),
      (fetch_requests_for_master db mid).Perm
        ((joinedRows db).filter (fun row => row.master_id == some mid)) ∧
      List.Pairwise masterRowLe (fetch_requests_for_master db mid)) ∧
    (fetch_requests_for_master dbThree 7).map ArchiveRow.request_id = [2, 3, 1] := by
  refine ⟨fun db mid => ⟨List.perm_insertionSort _ _, ?_⟩, by decide⟩
  exact List.sorted_insertionSort masterRowLe _

/-- Every flagged pair comes from a row occurring strictly after one
with the same key (or a key preloaded in `seen`). -/
theorem flags_from_earlier (rows : List ArchiveRow)
    (seen : List ((String × String) × Nat)) (p : Nat × Nat)
    (hp : p ∈ delete_duplicates_flags seen rows) :
    ∃ l1 r l2, rows = l1 ++ r :: l2 ∧ r.request_id = p.1 ∧
      (lookupSeen seen (dupKey r) ≠ none ∨ ∃ rd ∈ l1, dupKey rd = dupKey r) := by
  induction rows generalizing seen with
  | nil => simp [delete_duplicates_flags] at hp
  | cons r rest ih =>
      cases hL : lookupSeen seen (dupKey r) with
      | some orig =>
          simp only [delete_duplicates_flags, hL] at hp
          rcases List.mem_cons.mp hp with h | h
          · exact ⟨[], r, rest, rfl, by rw [h], Or.inl (by rw [hL]; simp)⟩
          · obtain ⟨l1, r1, l2, hsplit, hid, hcond⟩ := ih seen h
            refine ⟨r :: l1, r1, l2, by rw [hsplit, List.cons_append], hid, ?_⟩
            rcases hcond with hc | ⟨rd, hrd, hk⟩
            · exact Or.inl hc
            · exact Or.inr ⟨rd, List.mem_cons_of_mem r hrd, hk⟩
      | none =>
          simp only [delete_duplicates_flags, hL] at hp
          obtain ⟨l1, r1, l2, hsplit, hid, hcond⟩ := ih ((dupKey r, r.request_id) :: seen) hp
          refine ⟨r :: l1, r1, l2, by rw [hsplit, List.cons_append], hid, ?_⟩
          rcases hcond with hc | ⟨rd, hrd, hk⟩
          · by_cases hk : dupKey r = dupKey r1
            · exact Or.inr ⟨r, List.mem_cons_self r l1, hk⟩
            · refine Or.inl ?_
              have hcons : lookupSeen ((dupKey r, r.request_id) :: seen) (dupKey r1) =
                  lookupSeen seen (dupKey r1) := by
                simp [lookupSeen, hk]
              rw [hcons] at hc
              exact hc
          · exact Or.inr ⟨rd, List.mem_cons_of_mem r hrd, hk⟩

/-- C3: on the list `[A, B, C]` with B a case/whitespace variant of A
on the same phone and C the same description on another phone, the
duplicate pass flags exactly B as a duplicate of A; and in general a
flagged row always has a strictly earlier row with the same key, so
the first ticket seen with a key is never flagged. -/
theorem duplicate_detection :
    (∀ (rowA rowB rowC : ArchiveRow),
      rowB.client_phone = rowA.client_phone →
      rowC.client_phone ≠ rowA.client_phone →
      pyLower (pyStrip (rowB.problem_description.getD "")) =
        pyLower (pyStrip (rowA.problem_description.getD "")) →
      rowC.problem_description = rowA.problem_description →
      delete_duplicates_flags [] [rowA, rowB, rowC] =
        [(rowB.request_id, rowA.request_id)]) ∧
    (∀ (rows : List ArchiveRow) (p : Nat × Nat),
      p ∈ delete_duplicates_flags [] rows →
      ∃ l1 r l2 rd, rows = l1 ++ r :: l2 ∧ r.request_id = p.1 ∧ rd ∈ l1 ∧
        dupKey rd = dupKey r) := by
  constructor
  · intro rowA rowB rowC hph hphC hdesc hdescC
    have hkB : dupKey rowB = dupKey rowA := by
      simp [dupKey, hph, hdesc]
    have hkC : dupKey rowA ≠ dupKey rowC := by
      intro h
      exact hphC (congrArg Prod.fst h).symm
    simp [delete_duplicates_flags, lookupSeen, hkB, hkC]
  · intro rows p hp
    obtain ⟨l1, r, l2, hsplit, hid, hcond⟩ := flags_from_earlier rows [] p hp
    rcases hcond with hc | ⟨rd, hrd, hk⟩
    · exact absurd rfl hc
    · exact ⟨l1, r, l2, rd, hsplit, hid, hrd, hk⟩

/-- Witness for `duplicate_detection` on the concrete rows. -/
theorem duplicate_detection_witness :
    delete_duplicates_flags [] [rowA0, rowB0, rowC0] = [(2, 1)] ∧
    (∃ l1 r l2 rd, [rowA0, rowB0, rowC0] = l1 ++ r :: l2 ∧
      r.request_id = ((2 : Nat), (1 : Nat)).1 ∧ rd ∈ l1 ∧ dupKey rd = dupKey r) :=
  ⟨duplicate_detection.1 rowA0 rowB0 rowC0 (by decide) (by decide) (by decide)
     (by decide),
   duplicate_detection.2 [rowA0, rowB0, rowC0] (2, 1) (by decide)⟩

/-- In a list whose images under `f` are distinct, searching by the
image of a member finds exactly that member. -/
theorem find?_attr_of_nodup {α β : Type} [DecidableEq β] (f : α → β)
    (l : List α) (x : α) (hnd : (l.map f).Nodup) (hx : x ∈ l) :
    l.find? (fun y => f y == f x) = some x := by
  induction l with
  | nil => simp at hx
  | cons a t ih =>
      rcases List.mem_cons.mp hx with rfl | hx2
      · simp
      · have hna : f a ≠ f x := by
          intro h
          have hmem : f x ∈ t.map f := List.mem_map_of_mem f hx2
          rw [← h] at hmem
          exact (List.nodup_cons.mp hnd).1 hmem
        rw [List.find?_cons_of_neg _ (by simp [hna])]
        exact ih (List.nodup_cons.mp hnd).2 hx2

/-- Creating or finding a client never touches requests, statuses or
their counters. -/
theorem get_or_create_client_keeps (db : DB) (n p : String) :
    (get_or_create_client db n p).2.requests = db.requests ∧
    (get_or_create_client db n p).2.request_statuses = db.request_statuses ∧
    (get_or_create_client db n p).2.next_request_id = db.next_request_id ∧
    (get_or_create_client db n p).2.next_status_id = db.next_status_id := by
  unfold get_or_create_client
  dsimp only
  split <;> split <;> exact ⟨rfl, rfl, rfl, rfl⟩

/-- Creating or finding equipment never touches requests, statuses or
their counters. -/
theorem get_or_create_equipment_keeps (db : DB) (tn m : String) :
    (get_or_create_equipment db tn m).2.requests = db.requests ∧
    (get_or_create_equipment db tn m).2.request_statuses = db.request_statuses ∧
    (get_or_create_equipment db tn m).2.next_request_id = db.next_request_id ∧
    (get_or_create_equipment db tn m).2.next_status_id = db.next_status_id := by
  unfold get_or_create_equipment
  dsimp only
  split <;> split <;> exact ⟨rfl, rfl, rfl, rfl⟩

/-- Resolving a status id never touches the request counter. -/
theorem _get_status_id_next_request (db : DB) (s : String) :
    (_get_status_id db s).2.next_request_id = db.next_request_id := by
  unfold _get_status_id
  split <;> rfl

/-- After `_get_status_id`, looking the returned id back up yields the
requested name (given well-formed status ids). -/
theorem _get_status_id_name (db : DB) (s : String)
    (hwf2 : ∀ st ∈ db.request_statuses, st.status_id < db.next_status_id)
    (hwf3 : (db.request_statuses.map StatusRow.status_id).Nodup) :
    ((_get_status_id db s).2.request_statuses.find?
      (fun st => st.status_id == (_get_status_id db s).1)).map
        (fun st => st.status_name) = some s := by
  unfold _get_status_id
  cases hE : db.request_statuses.find? (fun st => st.status_name == s) with
  | some st =>
      dsimp only
      have hmem : st ∈ db.request_statuses := List.mem_of_find?_eq_some hE
      have hname : st.status_name = s := by
        have := List.find?_some hE
        simpa using this
      have hfind := find?_attr_of_nodup StatusRow.status_id db.request_statuses st hwf3 hmem
      rw [hfind]
      simp [hname]
  | none =>
      dsimp only
      rw [List.find?_append]
      have hold : db.request_statuses.find?
          (fun st => st.status_id == db.next_status_id) = none := by
        rw [List.find?_eq_none]
        intro st hst
        have := hwf2 st hst
        simp
        omega
      rw [hold]
      simp

/-- `create_request` hands out the current request counter as a fresh
id and stores the request under the default status "Новая заявка". -/
theorem create_request_spec (db : DB) (cid eid : Nat) (problem : String) (today : Nat)
    (hwf1 : ∀ r ∈ db.requests, r.request_id < db.next_request_id)
    (hwf2 : ∀ st ∈ db.request_statuses, st.status_id < db.next_status_id)
    (hwf3 : (db.request_statuses.map StatusRow.status_id).Nodup) :
    (create_request db cid eid problem today).1 = db.next_request_id ∧
    ((create_request db cid eid problem today).1 ∉
      db.requests.map RequestRow.request_id) ∧
    ((create_request db cid eid problem today).1 ∈
      (create_request db cid eid problem today).2.requests.map RequestRow.request_id) ∧
    requestStatusName (create_request db cid eid problem today).2
      (create_request db cid eid problem today).1 = some "Новая заявка" := by
  have hrid : (create_request db cid eid problem today).1 = db.next_request_id := by
    show (_get_status_id db "Новая заявка").2.next_request_id = db.next_request_id
    exact _get_status_id_next_request db "Новая заявка"
  have hreqs : (create_request db cid eid problem today).2.requests =
      (_get_status_id db "Новая заявка").2.requests ++
        [createdRequestRow db cid eid problem today] := rfl
  have hstats : (create_request db cid eid problem today).2.request_statuses =
      (_get_status_id db "Новая заявка").2.request_statuses := rfl
  have hold : db.requests.find?
      (fun r => r.request_id == db.next_request_id) = none := by
    rw [List.find?_eq_none]
    intro r hr
    have := hwf1 r hr
    simp
    omega
  refine ⟨hrid, ?_, ?_, ?_⟩
  · rw [hrid]
    intro hmem
    obtain ⟨r, hr, hid⟩ := List.mem_map.mp hmem
    have := hwf1 r hr
    omega
  · refine List.mem_map.mpr ⟨createdRequestRow db cid eid problem today, ?_, ?_⟩
    · rw [hreqs]
      exact List.mem_append_right _ (List.mem_singleton.mpr rfl)
    · rfl
  · unfold requestStatusName
    rw [hrid, hreqs, hstats, _get_status_id_requests, List.find?_append, hold]
    have hrow : (createdRequestRow db cid eid problem today).request_id =
        db.next_request_id := _get_status_id_next_request db "Новая заявка"
    simp only [Option.none_or, List.find?_singleton, hrow, beq_self_eq_true, if_true,
      Option.some_bind]
    have hsid : (createdRequestRow db cid eid problem today).status_id =
        (_get_status_id db "Новая заявка").1 := rfl
    rw [hsid]
    exact _get_status_id_name db "Новая заявка" hwf2 hwf3

/-- C4: for valid inputs, the create-ticket pipeline
(`get_or_create_client` + `get_or_create_equipment` + `create_request`)
issues a strictly new request id — one not borne by any existing
request — and the created ticket resolves to the default status
"Новая заявка". -/
theorem create_ticket_fresh (db : DB) (name phone dtype dmodel problem : String)
    (today : Nat)
    (hname : name ≠ "") (hphone : phone ≠ "") (hdtype : dtype ≠ "")
    (hproblem : problem ≠ "")
    (hwf1 : ∀ r ∈ db.requests, r.request_id < db.next_request_id)
    (hwf2 : ∀ st ∈ db.request_statuses, st.status_id < db.next_status_id)
    (hwf3 : (db.request_statuses.map StatusRow.status_id).Nodup) :
    ((create_ticket db name phone dtype dmodel problem today).1 ∉
      db.requests.map RequestRow.request_id) ∧
    ((create_ticket db name phone dtype dmodel problem today).1 ∈
      (create_ticket db name phone dtype dmodel problem today).2.requests.map
        RequestRow.request_id) ∧
    requestStatusName (create_ticket db name phone dtype dmodel problem today).2
      (create_ticket db name phone dtype dmodel problem today).1 =
        some "Новая заявка" := by
  have kc := get_or_create_client_keeps db name phone
  have ke := get_or_create_equipment_keeps (get_or_create_client db name phone).2
    dtype (pyOrStr dmodel "Модель не указана")
  have hwf1b : ∀ r ∈ (get_or_create_equipment (get_or_create_client db name phone).2
      dtype (pyOrStr dmodel "Модель не указана")).2.requests,
      r.request_id < (get_or_create_equipment (get_or_create_client db name phone).2
        dtype (pyOrStr dmodel "Модель не указана")).2.next_request_id := by
    rw [ke.1, kc.1, ke.2.2.1, kc.2.2.1]
    exact hwf1
  have hwf2b : ∀ st ∈ (get_or_create_equipment (get_or_create_client db name phone).2
      dtype (pyOrStr dmodel "Модель не указана")).2.request_statuses,
      st.status_id < (get_or_create_equipment (get_or_create_client db name phone).2
        dtype (pyOrStr dmodel "Модель не указана")).2.next_status_id := by
    rw [ke.2.1, kc.2.1, ke.2.2.2, kc.2.2.2]
    exact hwf2
  have hwf3b : ((get_or_create_equipment (get_or_create_client db name phone).2
      dtype (pyOrStr dmodel "Модель не указана")).2.request_statuses.map
        StatusRow.status_id).Nodup := by
    rw [ke.2.1, kc.2.1]
    exact hwf3
  have H := create_request_spec (get_or_create_equipment
      (get_or_create_client db name phone).2 dtype
      (pyOrStr dmodel "Модель не указана")).2
    (get_or_create_client db name phone).1
    (get_or_create_equipment (get_or_create_client db name phone).2 dtype
      (pyOrStr dmodel "Модель не указана")).1
    problem today hwf1b hwf2b hwf3b
  refine ⟨?_, H.2.2.1, H.2.2.2⟩
  have hid := H.1
  rw [ke.2.2.1, kc.2.2.1] at hid
  show (create_request _ _ _ problem today).1 ∉ db.requests.map RequestRow.request_id
  rw [hid]
  intro hmem
  obtain ⟨r, hr, hrid2⟩ := List.mem_map.mp hmem
  have := hwf1 r hr
  omega

/-- Witness for `create_ticket_fresh` on the empty store. -/
theorem create_ticket_fresh_witness :
    ((create_ticket dbEmpty "Ann Lee" "111" "Printer" "" "broken" 5).1 ∉
      dbEmpty.requests.map RequestRow.request_id) ∧
    ((create_ticket dbEmpty "Ann Lee" "111" "Printer" "" "broken" 5).1 ∈
      (create_ticket dbEmpty "Ann Lee" "111" "Printer" "" "broken" 5).2.requests.map
        RequestRow.request_id) ∧
    requestStatusName (create_ticket dbEmpty "Ann Lee" "111" "Printer" "" "broken" 5).2
      (create_ticket dbEmpty "Ann Lee" "111" "Printer" "" "broken" 5).1 =
        some "Новая заявка" :=
  create_ticket_fresh dbEmpty "Ann Lee" "111" "Printer" "" "broken" 5
    (by decide) (by decide) (by decide) (by decide)
    (by simp [dbEmpty]) (by simp [dbEmpty]) (by simp [dbEmpty])

/-- C7: when the (lowered) search string matches none of the other
eight searched fields on any row, `search_requests` returns exactly the
rows whose status name contains it case-insensitively. -/
theorem search_by_status_only (db : DB) (text : String)
    (honly : ∀ row ∈ joinedRows db,
      pIdMatch (pyLower text) row = false ∧
      pFioMatch (pyLower text) row = false ∧
      pPhoneMatch (pyLower text) row = false ∧
      pTypeMatch (pyLower text) row = false ∧
      pModelMatch (pyLower text) row = false ∧
      pDescMatch (pyLower text) row = false ∧
      pPrioMatch (pyLower text) row = false ∧
      pKindMatch (pyLower text) row = false) :
    ∀ row, row ∈ search_requests db text ↔
      (row ∈ joinedRows db ∧ pStatusMatch (pyLower text) row = true) := by
  intro row
  unfold search_requests
  rw [List.mem_insertionSort, List.mem_filter]
  constructor
  · rintro ⟨hmem, hmatch⟩
    refine ⟨hmem, ?_⟩
    have h8 := honly row hmem
    unfold rowMatches at hmatch
    simp only [h8.1, h8.2.1, h8.2.2.1, h8.2.2.2.1, h8.2.2.2.2.1, h8.2.2.2.2.2.1,
      h8.2.2.2.2.2.2.1, h8.2.2.2.2.2.2.2, Bool.false_or, Bool.or_false] at hmatch
    exact hmatch
  · rintro ⟨hmem, hst⟩
    refine ⟨hmem, ?_⟩
    unfold rowMatches
    simp [hst]

/-- Witness for `search_by_status_only`: searching "Don" in `dbSearch`
keeps the "Done" ticket and drops the "New" one. -/
theorem search_by_status_only_witness :
    (joinedRows dbSearch).getD 0 defaultArchiveRow ∈ search_requests dbSearch "Don" ∧
    ¬((joinedRows dbSearch).getD 1 defaultArchiveRow ∈ search_requests dbSearch "Don") := by
  have H := search_by_status_only dbSearch "Don" (by decide)
  constructor
  · exact (H _).mpr (by decide)
  · intro hm
    exact absurd ((H _).mp hm).2 (by decide)

